import Mathlib

/-!
Verification of the GekkoNet netplay frontend adapter
(src/network/netplay/netplay_frontend.c) against its specification.

The C source is shallowly embedded: machine integers become `Nat`/`Int`
(with explicit `% 2^16` where the C truncates to `unsigned short`),
byte buffers become `List Nat`, nullable pointers become `Option`,
and external collaborators (the libGekkoNet engine, the libretro core,
the configuration store, the OS loader and socket layer) become explicit
environment records whose fields give the results of the external calls.
All state mutation is explicit state passing.
-/

/-! ## Button table and libretro device constants

Values modelled from libretro.h (not under src/): the standard libretro
joypad device id numbering. The table order matches
`netplay_button_map` at netplay_frontend.c lines 92-109. -/

def RETRO_DEVICE_JOYPAD : Nat := 1

def NETPLAY_BUTTON_COUNT : Nat := 16

/-- Embeds `netplay_button_map` (netplay_frontend.c:92): index → joypad button id,
order B, Y, Select, Start, Up, Down, Left, Right, A, X, L, R, L2, R2, L3, R3.
With libretro's numbering these ids are 0..15 in this exact order. -/
def netplay_button_map : List Nat :=
  [0, 1, 2, 3, 4, 5, 6, 7, 8, 9, 10, 11, 12, 13, 14, 15]

/-! ## Session object (`netplay_t`)

Field layout modelled from the fields this translation unit reads and
writes (the struct itself is declared in netplay_private.h, which is not
under src/).  Pointer-valued fields that the frontend only tests for
null (`session`, `adapter`) become `Bool`; the buffers become lists with
their tracked sizes. -/

structure Netplay where
  running : Bool
  connected : Bool
  session_started : Bool
  spectator : Bool
  local_handle : Int
  current_frame : Nat
  state_buffer : List Nat
  state_size : Nat
  authoritative_input : Option (List Nat)
  authoritative_size : Nat
  authoritative_valid : Bool
  local_input_mask : Nat
  num_players : Nat
  input_prediction_window : Nat
  spectator_delay : Nat
  allow_pausing : Bool
  allow_timeskip : Bool
  session : Bool
  adapter : Bool
  tcp_port : Nat
  ext_tcp_port : Nat
  cbs_state : Nat → Nat → Nat → Nat → Int

/-- Embeds `netplay_new` (netplay_frontend.c:1828): calloc-zeroed record, then
`local_handle = -1`, `running = true`, `spectator = false`.  The stored
core callbacks are installed by `init_netplay` right after allocation;
the embedding takes them as an argument. -/
def netplay_new (cbs : Nat → Nat → Nat → Nat → Int) : Netplay :=
  { running := true
    connected := false
    session_started := false
    spectator := false
    local_handle := -1
    current_frame := 0
    state_buffer := []
    state_size := 0
    authoritative_input := none
    authoritative_size := 0
    authoritative_valid := false
    local_input_mask := 0
    num_players := 0
    input_prediction_window := 0
    spectator_delay := 0
    allow_pausing := false
    allow_timeskip := false
    session := false
    adapter := false
    tcp_port := 0
    ext_tcp_port := 0
    cbs_state := cbs }

/-- Embeds `netplay_copy_authoritative_input` (netplay_frontend.c:1285).
`data = none` models a null data pointer; otherwise the list holds
exactly the `len` bytes the C reads, so `len` is the list length.
`allocOk` is the result of the `realloc` when growth is needed.
A successful copy overwrites the first `len` bytes of the buffer and
leaves any bytes between `len` and `authoritative_size` as they were. -/
def netplay_copy_authoritative_input (n : Netplay)
    (data : Option (List Nat)) (allocOk : Bool) : Netplay :=
  match data with
  | none => { n with authoritative_valid := false }
  | some d =>
    if d.length = 0 then { n with authoritative_valid := false }
    else if n.authoritative_size < d.length then
      if allocOk then
        { n with authoritative_input := some d
                 authoritative_size := d.length
                 authoritative_valid := true }
      else { n with authoritative_valid := false }
    else
      let oldbuf := n.authoritative_input.getD []
      { n with authoritative_input := some (d ++ oldbuf.drop d.length)
               authoritative_valid := true }

/-- Embeds `netplay_get_port_mask` (netplay_frontend.c:1311): reads the 16-bit
little-endian mask at byte offset `port * 2` of the authoritative input
buffer; returns 0 on a null netplay pointer, an invalid view, a null
buffer, a buffer shorter than one mask, or an out-of-range offset.
The bound is `offset + 2 > authoritative_size`. -/
def netplay_get_port_mask : Option Netplay → Nat → Nat
  | none, _ => 0
  | some n, port =>
    if n.authoritative_valid = false then 0
    else
      match n.authoritative_input with
      | none => 0
      | some buf =>
        if n.authoritative_size < 2 then 0
        else if 2 * port + 2 > n.authoritative_size then 0
        else buf.getD (2 * port) 0 + 256 * buf.getD (2 * port + 1) 0

/-! ## Driver state (`net_driver_state_t`)

Field layout modelled from the fields this translation unit uses (the
struct is declared in netplay_private.h, not under src/).  The three
`NET_DRIVER_ST_FLAG_*` bits become three booleans; `client_info`, a
pointer the frontend only allocates and frees, becomes a `Bool`. -/

structure NetDriverState where
  data : Option Netplay
  enabled : Bool
  is_client : Bool
  client_deferred : Bool
  server_address_deferred : String
  server_port_deferred : Nat
  session_status : String
  session_sync_current : Nat
  session_sync_total : Nat
  latest_ping : Int
  client_info : Bool
  client_info_count : Nat
  core_netpacket_interface : Bool

/-- The localized "Not available" label returned by
`msg_hash_to_str(MENU_ENUM_LABEL_VALUE_NOT_AVAILABLE)` (external to
src/); the status reset writes it into the session status. -/
def msg_not_available : String := "Not available"

/-- Embeds `netplay_session_status_set` (netplay_frontend.c:195). -/
def netplay_session_status_set (st : NetDriverState)
    (status : String) (current total : Nat) : NetDriverState :=
  { st with session_status := status
            session_sync_current := current
            session_sync_total := total }

/-- Embeds `netplay_session_status_reset` (netplay_frontend.c:213). -/
def netplay_session_status_reset (st : NetDriverState) : NetDriverState :=
  netplay_session_status_set st msg_not_available 0 0

/-- Embeds `input_state_net` (netplay_frontend.c:2284): with a live running
session and a joypad query on index 0, looks the id up in the button
table and answers from the authoritative mask; otherwise (or for any
other device or index) delegates to the stored core state callback. -/
def input_state_net (st : NetDriverState)
    (port device idx id : Nat) : Int :=
  match st.data with
  | none => 0
  | some n =>
    if n.running = false then 0
    else if device = RETRO_DEVICE_JOYPAD ∧ idx = 0 then
      match (List.range NETPLAY_BUTTON_COUNT).find?
          (fun i => netplay_button_map.getD i 0 = id) with
      | some i =>
        if (netplay_get_port_mask (some n) port).testBit i then 1 else 0
      | none => n.cbs_state port device idx id
    else n.cbs_state port device idx id

/-! ## Dynamic loader (`gekkonet_load_library`, Linux variant,
netplay_frontend.c:634-741; the Windows variant at 443-583 has identical
latch behaviour).

`LoaderEnv` gives the outcome of each OS call: `path_candidate` is the
result of `gekkonet_build_module_path` (executable directory joined with
"libGekkoNet.so"), `open_at_path`/`open_bare` whether `dlopen` succeeds
for the absolute path and the bare filename, and `sym` whether `dlsym`
resolves a given symbol name. -/

structure LoaderEnv where
  path_candidate : Option String
  open_at_path : Bool
  open_bare : Bool
  sym : String → Bool

structure LoaderState where
  module : Bool
  attempted_load : Bool
  load_failed : Bool
  module_path : String
  last_error_present : Bool

/-- The zero-initialised `g_gekkonet_api` static. -/
def loaderInit : LoaderState :=
  { module := false, attempted_load := false, load_failed := false
    module_path := "", last_error_present := false }

/-- The eleven required `gekko_` symbols resolved by `GEKKONET_RESOLVE`. -/
def gekkonet_required_symbols : List String :=
  ["gekko_create", "gekko_destroy", "gekko_start", "gekko_net_adapter_set",
   "gekko_add_actor", "gekko_add_local_input", "gekko_update_session",
   "gekko_session_events", "gekko_network_stats", "gekko_network_poll",
   "gekko_default_adapter"]

/-- Embeds `gekkonet_load_library` (netplay_frontend.c:634): returns true at once
when the module is already open; returns false at once when
`attempted_load` is set; otherwise opens the library (absolute path
first, then the bare name), binds every required symbol, and probes the
optional `gekko_last_error` / `gekko_get_last_error` symbol.  On an open
failure, or on any missing required symbol, the module is closed and the
state ends with `attempted_load = false` and `load_failed = true`. -/
def gekkonet_load_library (env : LoaderEnv) (s : LoaderState) :
    Bool × LoaderState :=
  if s.module then (true, s)
  else if s.attempted_load then (false, s)
  else
    let s := { s with attempted_load := true, load_failed := false
                      last_error_present := false, module_path := "" }
    let opened : Option String :=
      match env.path_candidate with
      | some p =>
        if env.open_at_path then some p
        else if env.open_bare then some "libGekkoNet.so" else none
      | none => if env.open_bare then some "libGekkoNet.so" else none
    match opened with
    | none =>
      (false, { s with attempted_load := false, load_failed := true })
    | some p =>
      let s := { s with module := true, module_path := p }
      if gekkonet_required_symbols.all env.sym then
        let le := env.sym "gekko_last_error" || env.sym "gekko_get_last_error"
        (true, { s with last_error_present := le })
      else
        (false, { s with module := false, module_path := ""
                         last_error_present := false
                         attempted_load := false, load_failed := true })

/-! ## Teardown and deferred init -/

/-- Embeds `deinit_netplay` (netplay_frontend.c:2025): frees the session if one
is live, clears the enabled/is-client flags, resets the ping and the
session status, and releases the client-info array.  The calls to
`preempt_init` and `core_unset_netplay_callbacks` act on state outside
the driver record. -/
def deinit_netplay (st : NetDriverState) : NetDriverState :=
  let st :=
    match st.data with
    | some _ => { st with data := none }
    | none => st
  let st := { st with enabled := false, is_client := false, latest_ping := -1 }
  let st := netplay_session_status_reset st
  { st with client_info := false, client_info_count := 0 }

/-- Embeds `init_netplay_deferred` (netplay_frontend.c:2007): a null server
pointer returns false without touching the state; otherwise the address
and port are recorded and the deferred-client flag is set. -/
def init_netplay_deferred (server : Option String) (port : Nat)
    (st : NetDriverState) : Bool × NetDriverState :=
  match server with
  | none => (false, st)
  | some srv =>
    (true, { st with server_address_deferred := srv
                     server_port_deferred := port
                     client_deferred := true })

/-! ## Control dispatcher (`netplay_driver_ctl`, netplay_frontend.c:2052)

The `RARCH_NETPLAY_CTL_*` discriminators this translation unit handles.
`PRE_FRAME`/`POST_FRAME` dispatch into the per-frame pipeline
(`netplay_pre_frame`/`netplay_post_frame`), which no claim concerns, so
they are not part of this state-level embedding.  For
`SET_CORE_PACKET_INTERFACE` the malloc-failure branch (which returns
false with the slot cleared) is not modelled; `getSessionStatus` carries
whether the caller passed a non-null out pointer. -/

inductive NetplayCtlOp where
  | enableServer | enableClient | disable
  | isEnabled | isConnected | isServer | isPlaying | isSpectating
  | isDataInited | allowPause | allowTimeskip
  | pause | unpause | gameWatch | playerChat | refreshClientInfo
  | isReplaying | loadSavestate | reset | disconnect
  | finishedNatTraversal | desyncPush | desyncPop | kickClient | banClient
  | setCorePacketInterface (present : Bool)
  | useCorePacketInterface
  | getSessionStatus (dataPresent : Bool)
  | ctlNone

def netplay_driver_ctl (op : NetplayCtlOp) (st : NetDriverState) :
    Bool × NetDriverState :=
  match op with
  | .enableServer =>
    (true, { st with enabled := true, is_client := false })
  | .enableClient =>
    (true, { st with enabled := true, is_client := true })
  | .disable =>
    match st.data with
    | some _ => (false, st)
    | none => (true, { st with enabled := false })
  | .isEnabled =>
    (match st.data with | some n => n.running | none => false, st)
  | .isConnected =>
    (match st.data with | some n => n.connected | none => false, st)
  | .isServer =>
    (match st.data with
     | some n => decide (0 ≤ n.local_handle) && !st.is_client
     | none => false, st)
  | .isPlaying =>
    (match st.data with
     | some n => n.connected && !n.spectator
     | none => false, st)
  | .isSpectating =>
    (match st.data with | some n => n.spectator | none => false, st)
  | .isDataInited =>
    (match st.data with | some n => n.session_started | none => false, st)
  | .allowPause =>
    (match st.data with | some n => n.allow_pausing | none => false, st)
  | .allowTimeskip =>
    (match st.data with | some n => n.allow_timeskip | none => false, st)
  | .pause | .unpause | .gameWatch | .playerChat | .refreshClientInfo
  | .isReplaying | .loadSavestate | .reset | .disconnect =>
    match st.data with
    | none => (false, st)
    | some _ => (true, deinit_netplay st)
  | .finishedNatTraversal | .desyncPush | .desyncPop
  | .kickClient | .banClient => (false, st)
  | .setCorePacketInterface present =>
    (true, { st with core_netpacket_interface := present })
  | .useCorePacketInterface => (st.core_netpacket_interface, st)
  | .getSessionStatus dataPresent => (dataPresent, st)
  | .ctlNone => (false, st)

/-! ## CRC32

Modelled from the spec: `encoding_crc32` (libretro-common
encodings/crc32.c, not under src/) computes the standard IEEE CRC-32
(reflected bit order, polynomial 0xEDB88320, zlib-style pre/post
inversion) continuing from the given seed; `netplay_handle_save_event`
calls it with seed 0. -/

def crc32_update_bit (c : Nat) : Nat :=
  if c % 2 = 1 then (c / 2) ^^^ 0xEDB88320 else c / 2

def crc32_update_byte (c b : Nat) : Nat :=
  crc32_update_bit^[8] (c ^^^ (b % 256))

def crc32 (seed : Nat) (data : List Nat) : Nat :=
  (data.foldl crc32_update_byte ((seed % 2 ^ 32) ^^^ 0xFFFFFFFF)) ^^^ 0xFFFFFFFF

/-- Sanity anchor for the CRC model: the well-known IEEE CRC-32 of the
bytes of "abc". -/
theorem crc32_abc : crc32 0 [97, 98, 99] = 0x352441C2 := by decide

/-! ## Serialization and the save event -/

/-- Embeds `netplay_refresh_serialization` (netplay_frontend.c:1256):
`serialize_size` is the core's reported save-state size
(`core_serialize_size_special`), `realloc_ok` the outcome of the
`realloc` when the size changed.  A zero size or a failed reallocation
fails without touching the session.  The reallocated buffer keeps its
old prefix; bytes past the old length are indeterminate in C and
modelled as zero (every observation in this file overwrites them before
reading). -/
def padTo (size : Nat) (l : List Nat) : List Nat :=
  l.take size ++ List.replicate (size - l.length) 0

def netplay_refresh_serialization (serialize_size : Nat) (realloc_ok : Bool)
    (n : Netplay) : Option Netplay :=
  if serialize_size = 0 then none
  else if serialize_size ≠ n.state_size then
    if realloc_ok then
      some { n with state_size := serialize_size
                    state_buffer := padTo serialize_size n.state_buffer }
    else none
  else some n

/-- External-core environment for a save event: the reported serialize
size, the realloc outcome, whether `core_serialize_special` succeeds,
and the bytes it writes into the `state_size`-byte buffer (normalised to
that length with `padTo`). -/
structure CoreEnv where
  serialize_size : Nat
  realloc_ok : Bool
  serialize_ok : Bool
  serialize_bytes : List Nat

/-- The `save` member of a `GekkoGameEvent`: whether the engine-supplied
`state` pointer is non-null, the `*state_len` capacity behind the
(possibly null) `state_len` pointer, and whether the `checksum` slot
pointer is non-null. -/
structure GekkoSaveData where
  state_present : Bool
  state_len : Option Nat
  checksum_present : Bool

/-- Observable outcome of `netplay_handle_save_event`: the session state
afterwards, the bytes written into the engine buffer (`none` = buffer
untouched), the value written back through `state_len` (`none` =
untouched), and the value stored in the checksum slot (`none` =
untouched). -/
structure SaveOutcome where
  netplay : Netplay
  state_written : Option (List Nat)
  state_len_out : Option Nat
  checksum_out : Option Nat

/-- Embeds `netplay_handle_save_event` (netplay_frontend.c:1358): refresh the
serialization buffer, serialize the core into it, copy
`min(payload, *state_len)` bytes into the engine buffer and write the
copied size back, then store `encoding_crc32(0, state_buffer, payload)`
in the checksum slot, where `payload = info.size` is the serialize
call's size (the refreshed `state_size`).  Any failure before the copy
writes nothing. -/
def netplay_handle_save_event (env : CoreEnv) (n : Netplay)
    (ev : GekkoSaveData) : SaveOutcome :=
  match netplay_refresh_serialization env.serialize_size env.realloc_ok n with
  | none => ⟨n, none, none, none⟩
  | some n1 =>
    if env.serialize_ok = false then ⟨n1, none, none, none⟩
    else
      let bytes := padTo n1.state_size env.serialize_bytes
      let n2 := { n1 with state_buffer := bytes }
      let payload := n2.state_size
      let copied : Option (List Nat × Nat) :=
        if ev.state_present then
          match ev.state_len with
          | some cap =>
            let copy_size := if payload > cap then cap else payload
            some (bytes.take copy_size, copy_size)
          | none => none
        else none
      let cks :=
        if ev.checksum_present then some (crc32 0 (bytes.take payload))
        else none
      ⟨n2, copied.map Prod.fst, copied.map Prod.snd, cks⟩

/-! ## Host startup diagnostics (`netplay_host_diagnostics_t`,
netplay_frontend.c:155): the fields the embedded control flow writes. -/

structure HostDiag where
  requested_port : Nat
  resolved_port : Nat
  port_probe_supported : Bool
  initial_probe_available : Bool
  initial_probe_verified : Bool
  fallback_scan_attempted : Bool
  fallback_succeeded : Bool
  fallback_attempts : Nat
  fallback_aborted_on_wrap : Bool
  fallback_aborted_on_unverified : Bool
  netplay_driver_enabled : Bool
  netplay_driver_auto_enabled : Bool
  netplay_driver_request_client : Bool
  netplay_state_allocated : Bool
  core_callbacks_ready : Bool
  netplay_callbacks_ready : Bool
  serialization_ready : Bool
  session_created : Bool
  settings_applied : Bool
  adapter_acquired : Bool
  session_started : Bool
  local_actor_registered : Bool
  failure_stage : String
  failure_reason : String

/-- The `memset(&diag, 0, sizeof(diag))` at init_netplay entry. -/
def hostDiagInit : HostDiag :=
  { requested_port := 0, resolved_port := 0
    port_probe_supported := false
    initial_probe_available := false, initial_probe_verified := false
    fallback_scan_attempted := false, fallback_succeeded := false
    fallback_attempts := 0
    fallback_aborted_on_wrap := false
    fallback_aborted_on_unverified := false
    netplay_driver_enabled := false
    netplay_driver_auto_enabled := false
    netplay_driver_request_client := false
    netplay_state_allocated := false
    core_callbacks_ready := false, netplay_callbacks_ready := false
    serialization_ready := false
    session_created := false, settings_applied := false
    adapter_acquired := false, session_started := false
    local_actor_registered := false
    failure_stage := "", failure_reason := "" }

/-! ## UDP port selection (netplay_frontend.c:1678-1779)

`probe` is `netplay_udp_port_available`: for a port it yields
`(available, verified)`.  The fallback loop starts from the requested
port, steps the 16-bit `probe_port` with wraparound, and runs for at
most `max_probes = 16` iterations (`idx` is the C loop's
`probe_index`). -/

/-- The fallback loop (netplay_frontend.c:1707-1746).  Returns the
selected port if any, the final `port_verified` flag, and the updated
diagnostics. -/
def fallback_loop (probe : Nat → Bool × Bool) :
    Nat → Nat → Nat → HostDiag → Option Nat × Bool × HostDiag
  | 0, _, _, diag => (none, true, diag)
  | fuel + 1, idx, pp, diag =>
    let pp' := (pp + 1) % 65536
    if pp' = 0 then
      (none, true, { diag with fallback_aborted_on_wrap := true })
    else
      let diag := { diag with fallback_attempts := idx + 1 }
      if (probe pp').1 && (probe pp').2 then
        (some pp', true, { diag with fallback_succeeded := true
                                     port_probe_supported := true })
      else if !(probe pp').2 then
        (none, false, { diag with fallback_aborted_on_unverified := true })
      else fallback_loop probe fuel (idx + 1) pp' diag

/-- The ports the fallback loop actually probes, in order (same branch
structure as `fallback_loop`, diagnostics dropped). -/
def fallback_probed (probe : Nat → Bool × Bool) : Nat → Nat → List Nat
  | 0, _ => []
  | fuel + 1, pp =>
    let pp' := (pp + 1) % 65536
    if pp' = 0 then []
    else if (probe pp').1 && (probe pp').2 then [pp']
    else if !(probe pp').2 then [pp']
    else pp' :: fallback_probed probe fuel pp'

/-- The port-selection block of `netplay_setup_session`
(netplay_frontend.c:1678-1779): initial probe, optional fallback scan
(entered only on `available=false, verified=true`), then the final
availability check.  Returns the resolved port (`none` means the
`port_selection` failure path) and the updated diagnostics.  The
`configuration_set_uint` persistence of a fallback port acts on the
external configuration store. -/
def netplay_port_selection (probe : Nat → Bool × Bool) (udp_port : Nat)
    (diag : HostDiag) : Option Nat × HostDiag :=
  let r := probe udp_port
  let diag := { diag with initial_probe_available := r.1
                          initial_probe_verified := r.2
                          port_probe_supported :=
                            diag.port_probe_supported || r.2 }
  if r.1 = false ∧ r.2 = true then
    let diag := { diag with fallback_scan_attempted := true }
    match fallback_loop probe 16 0 udp_port diag with
    | (some p, _, diag) => (some p, { diag with resolved_port := p })
    | (none, ver, diag) =>
      if ver then (none, diag)
      else (some udp_port, { diag with resolved_port := udp_port })
  else (some udp_port, { diag with resolved_port := udp_port })

/-! ## Settings and the lifecycle orchestrator -/

/-- The configuration values `netplay_apply_settings` and
`netplay_setup_session` read (configuration.h is external to src/; the
field set is exactly what this translation unit consumes). -/
structure SettingsT where
  netplay_port : Nat
  netplay_allow_pausing : Bool
  netplay_desync_handling : String
  input_max_users : Nat
  netplay_prediction_window : Nat
  netplay_local_delay : Nat
  netplay_spectator_limit : Nat

/-- Modelled from the spec: the compile-time default for
`netplay_desync_handling` (config.def.h, not under src/); its exact
value is irrelevant to every claim below. -/
def DEFAULT_NETPLAY_DESYNC_HANDLING : String := "auto"

/-- Environment for `netplay_setup_session`: whether `config_get_ptr`
returned a settings block and its contents, plus the results of the
libGekkoNet calls (`gekko_create`, the core serialize size and realloc
used by `netplay_refresh_serialization`, the UDP probe, the default
adapter, and the `gekko_add_actor` handle). -/
structure SetupEnv where
  settings_present : Bool
  settings : SettingsT
  create_ok : Bool
  serialize_size : Nat
  realloc_ok : Bool
  probe : Nat → Bool × Bool
  adapter_ok : Bool
  actor_handle : Int

/-- Embeds `netplay_apply_settings` (netplay_frontend.c:1572): copies the
pausing/desync/tunable settings into the session (each tunable clamped
to 255) and refreshes the serialization buffer; `none` models returning
false.  The caller sets `diag.serialization_ready` and
`diag.settings_applied` on success. -/
def netplay_apply_settings (setup : SetupEnv) (n : Netplay) :
    Option Netplay :=
  if setup.settings_present = false then none
  else
    let s := setup.settings
    let dm := if s.netplay_desync_handling = ""
              then DEFAULT_NETPLAY_DESYNC_HANDLING
              else s.netplay_desync_handling
    let n := { n with
      allow_pausing := s.netplay_allow_pausing
      allow_timeskip := (dm.toLower = "auto" || dm.toLower = "rollback")
      num_players :=
        if s.input_max_users ≤ 255 then s.input_max_users else 255
      input_prediction_window :=
        if s.netplay_prediction_window ≤ 255
        then s.netplay_prediction_window else 255
      spectator_delay :=
        if s.netplay_local_delay ≤ 255 then s.netplay_local_delay else 255 }
    netplay_refresh_serialization setup.serialize_size setup.realloc_ok n

/-- Embeds `netplay_setup_session` (netplay_frontend.c:1613): create the engine
session, apply settings, select the UDP port, acquire the adapter, start
the session, register the local actor.  Returns the finished session and
resolved port, or `none` with the failure stage recorded.  The
`GekkoConfig` record handed to `gekko_start` carries no adapter state. -/
def netplay_setup_session (setup : SetupEnv) (n : Netplay)
    (port_in : Nat) (diag : HostDiag) :
    Option (Netplay × Nat) × HostDiag :=
  if setup.settings_present = false then (none, diag)
  else
    let requested := if port_in ≠ 0 then port_in
                     else setup.settings.netplay_port
    let udp := requested % 65536
    let diag := { diag with requested_port := requested
                            resolved_port := udp }
    if !n.session && !setup.create_ok then
      (none, { diag with
        failure_stage := "session_create"
        failure_reason := "libGekkoNet session handle creation failed" })
    else
      let n := { n with session := true }
      let diag := { diag with session_created := true }
      match netplay_apply_settings setup n with
      | none =>
        (none, { diag with
          failure_stage := "apply_settings"
          failure_reason := "netplay_apply_settings returned false" })
      | some n =>
        let diag := { diag with settings_applied := true
                                serialization_ready := true }
        match netplay_port_selection setup.probe udp diag with
        | (none, diag) =>
          (none, { diag with
            failure_stage := "port_selection"
            failure_reason :=
              "no verified UDP ports available within fallback window" })
        | (some resolved, diag) =>
          let n := { n with tcp_port := resolved, ext_tcp_port := resolved
                            adapter := setup.adapter_ok }
          if n.adapter = false then
            (none, { diag with
              failure_stage := "adapter_initialisation"
              failure_reason := "gekkonet_api_default_adapter returned NULL" })
          else
            let diag := { diag with adapter_acquired := true
                                    session_started := true }
            let n := { n with local_handle := setup.actor_handle }
            if n.local_handle < 0 then
              (none, { diag with
                failure_stage := "register_local_actor"
                failure_reason :=
                  "gekkonet_api_add_actor returned a negative handle" })
            else
              (some (n, resolved),
               { diag with local_actor_registered := true })

/-- Embeds `netplay_reset_state` (netplay_frontend.c:1841), the session-object
part; its `netplay_session_status_reset()` call acts on the driver
state and is applied by `init_netplay` on the success path. -/
def netplay_reset_state (n : Netplay) : Netplay :=
  { n with connected := false, session_started := false
           authoritative_valid := false, current_frame := 0 }

/-- Embeds `netplay_begin_session` (netplay_frontend.c:1853): fails when
`config_get_ptr` yields no settings, otherwise runs
`netplay_setup_session` and resets the per-session state (`server` is
unused by the C body). -/
def netplay_begin_session (setup : SetupEnv) (n : Netplay) (port : Nat)
    (diag : HostDiag) : Option (Netplay × Nat) × HostDiag :=
  if setup.settings_present = false then (none, diag)
  else
    match netplay_setup_session setup n port diag with
    | (none, diag) => (none, diag)
    | (some (n, resolved), diag) =>
      (some (netplay_reset_state n, resolved), diag)

/-- External-call results consumed directly by `init_netplay`:
`core_set_default_callbacks` (with the callback record it fills),
`core_set_netplay_callbacks`, and the `netplay_new` allocation. -/
structure InitEnv where
  default_cbs_ok : Bool
  cbs : Nat → Nat → Nat → Nat → Int
  netplay_cbs_ok : Bool
  alloc_ok : Bool

/-- Embeds `init_netplay` (netplay_frontend.c:1876): the staged host
initialisation.  Stages, in source order: preflight active-session
check, driver enable (through `netplay_driver_ctl`), core callbacks,
netplay callbacks, state allocation, `netplay_begin_session`; on success
the session is published, `latest_ping` is reset to −1 and the deferred
flag cleared.  Failure returns with the stage recorded; the cleanup path
(`netplay_free`, `core_unset_netplay_callbacks`, the diagnostics dump)
does not touch the driver record.  In the C, stage/reason defaults after
a failed begin-session are filled independently when empty; they are
always both empty or both set, so one test suffices. -/
def init_netplay (env : InitEnv) (setup : SetupEnv)
    (server : Option String) (port : Nat) (st : NetDriverState) :
    Bool × NetDriverState × HostDiag :=
  let want_client :=
    (match server with | some s => !s.isEmpty | none => false)
    || st.is_client
  let diag := { hostDiagInit with
    netplay_driver_request_client := want_client
    netplay_driver_enabled := st.enabled }
  if st.data.isSome then
    (false, st, { diag with
      failure_stage := "preflight_active_session"
      failure_reason := "net_st->data already set" })
  else
    let step :=
      if st.enabled = false then
        let r := netplay_driver_ctl
          (if want_client then .enableClient else .enableServer) st
        ((r.1 && r.2.enabled, r.2),
         { diag with netplay_driver_auto_enabled := r.1
                     netplay_driver_enabled := r.2.enabled })
      else ((true, st), diag)
    let ok := step.1.1
    let st := step.1.2
    let diag := step.2
    if ok = false then
      (false, st, { diag with
        failure_stage := "enable_driver"
        failure_reason := "failed to enable requested netplay driver" })
    else if env.default_cbs_ok = false then
      (false, st, { diag with
        failure_stage := "core_callbacks"
        failure_reason := "core_set_default_callbacks returned false" })
    else
      let diag := { diag with core_callbacks_ready := true }
      if env.netplay_cbs_ok = false then
        (false, st, { diag with
          failure_stage := "netplay_callbacks"
          failure_reason := "core_set_netplay_callbacks returned false" })
      else
        let diag := { diag with netplay_callbacks_ready := true }
        if env.alloc_ok = false then
          (false, st, { diag with
            failure_stage := "allocate_state"
            failure_reason := "netplay_new returned NULL" })
        else
          let diag := { diag with netplay_state_allocated := true }
          let n := { netplay_new env.cbs with
                     running := true, spectator := false }
          match netplay_begin_session setup n port diag with
          | (none, diag) =>
            let diag :=
              if diag.failure_stage = "" then
                { diag with
                  failure_stage := "session_init"
                  failure_reason := "netplay_begin_session returned false" }
              else diag
            (false, st, diag)
          | (some (n, _), diag) =>
            let st := netplay_session_status_reset st
            let st := { st with data := some n, latest_ping := -1
                                client_deferred := false }
            (true, st, diag)

/-! ## Shared concrete states for witnesses -/

def exCbs : Nat → Nat → Nat → Nat → Int := fun _ _ _ _ => 0

/-- A live session whose authoritative buffer holds the two-player masks
`[0x0001, 0x0002]` (little-endian bytes `[1,0,2,0]`). -/
def exN : Netplay :=
  { netplay_new exCbs with
    authoritative_input := some [1, 0, 2, 0]
    authoritative_size := 4
    authoritative_valid := true }

/-- A driver state whose slot is occupied by `exN`, with both flags set. -/
def exSessionSt : NetDriverState :=
  { data := some exN
    enabled := true
    is_client := true
    client_deferred := false
    server_address_deferred := "peer.example"
    server_port_deferred := 55435
    session_status := "Playing"
    session_sync_current := 1
    session_sync_total := 2
    latest_ping := 12
    client_info := true
    client_info_count := 1
    core_netpacket_interface := false }

/-- A driver state with an empty session slot but stale flags/status. -/
def exEmptySt : NetDriverState :=
  { exSessionSt with data := none }

/-! ## Claims -/

/-- C7: `port_mask(p)` returns 0 whenever `p*2 ≥ authoritative_size`,
whenever the authoritative view is invalid, the buffer is absent, or the
buffer is shorter than one 16-bit mask; and the bound is checked against
the tracked buffer length, not against `num_players` (the result is
invariant under any change of `num_players`). -/
theorem port_mask_bounds (n : Netplay) (p : Nat) :
    (n.authoritative_size ≤ 2 * p → netplay_get_port_mask (some n) p = 0)
    ∧ (n.authoritative_valid = false → netplay_get_port_mask (some n) p = 0)
    ∧ (n.authoritative_input = none → netplay_get_port_mask (some n) p = 0)
    ∧ (n.authoritative_size < 2 → netplay_get_port_mask (some n) p = 0)
    ∧ ∀ np : Nat,
        netplay_get_port_mask (some { n with num_players := np }) p
          = netplay_get_port_mask (some n) p := by
  refine ⟨?_, ?_, ?_, ?_, fun np => rfl⟩ <;>
    · intro h
      simp only [netplay_get_port_mask]
      repeat' split
      all_goals try simp_all
      all_goals omega

theorem port_mask_bounds_witness :
    exN.authoritative_size ≤ 2 * 2 ∧ netplay_get_port_mask (some exN) 2 = 0 :=
  ⟨by decide, (port_mask_bounds exN 2).1 (by decide)⟩

/-- Session states for the C9 stale-read scenario: a fresh session after
an authoritative copy of length 4 and then one of length 2. -/
def staleN1 : Netplay :=
  netplay_copy_authoritative_input (netplay_new exCbs) (some [1, 0, 2, 0]) true

def staleN2 : Netplay :=
  netplay_copy_authoritative_input staleN1 (some [5, 0]) true

/-- C9: `authoritative_size` never decreases across
`netplay_copy_authoritative_input`; concretely, after a successful copy
of length 4 followed by one of length 2, `port_mask(1)` — whose offset 2
is at the second copy's length but inside the retained size 4 — still
returns the stale mask 0x0002 from the first copy rather than 0. -/
theorem copy_authoritative_monotone_stale :
    (∀ (n : Netplay) (d : Option (List Nat)) (ok : Bool),
        n.authoritative_size ≤
          (netplay_copy_authoritative_input n d ok).authoritative_size)
    ∧ staleN1.authoritative_size = 4
    ∧ staleN2.authoritative_size = 4
    ∧ netplay_get_port_mask (some staleN1) 1 = 2
    ∧ netplay_get_port_mask (some staleN2) 1 = 2
    ∧ netplay_get_port_mask (some staleN2) 1 ≠ 0 := by
  refine ⟨?_, by decide, by decide, by decide, by decide, by decide⟩
  intro n d ok
  unfold netplay_copy_authoritative_input
  cases d with
  | none => simp
  | some l =>
    simp only
    repeat' split
    all_goals try simp_all
    all_goals omega

/-- C10: `init_netplay_deferred` with a null server returns false and
leaves the driver state (deferred address, deferred port, deferred flag,
and everything else) unchanged; with any non-null server it returns true
after recording the address and port and setting the deferred-client
flag, without creating a session. -/
theorem init_deferred_spec (port : Nat) (st : NetDriverState) :
    init_netplay_deferred none port st = (false, st)
    ∧ ∀ srv : String,
        (init_netplay_deferred (some srv) port st).1 = true
        ∧ (init_netplay_deferred (some srv) port st).2.server_address_deferred
            = srv
        ∧ (init_netplay_deferred (some srv) port st).2.server_port_deferred
            = port
        ∧ (init_netplay_deferred (some srv) port st).2.client_deferred = true
        ∧ (init_netplay_deferred (some srv) port st).2.data = st.data :=
  ⟨rfl, fun _ => ⟨rfl, rfl, rfl, rfl, rfl⟩⟩

/-- C8: after any `deinit_netplay` the session slot is empty, `enabled`
and `is_client` are cleared, `latest_ping` is −1 and the session status
is reset; on an already-empty slot the call destroys no session and
changes exactly the flags, ping, status and client-info fields. -/
theorem deinit_spec (st : NetDriverState) :
    (deinit_netplay st).data = none
    ∧ (deinit_netplay st).enabled = false
    ∧ (deinit_netplay st).is_client = false
    ∧ (deinit_netplay st).latest_ping = -1
    ∧ (deinit_netplay st).session_status = msg_not_available
    ∧ (deinit_netplay st).session_sync_current = 0
    ∧ (deinit_netplay st).session_sync_total = 0
    ∧ (st.data = none →
        deinit_netplay st =
          { st with enabled := false, is_client := false, latest_ping := -1
                    session_status := msg_not_available
                    session_sync_current := 0, session_sync_total := 0
                    client_info := false, client_info_count := 0 }) := by
  obtain ⟨d, e, c, cd, sa, sp, ss, s1, s2, lp, ci, cc, ni⟩ := st
  cases d with
  | none => exact ⟨rfl, rfl, rfl, rfl, rfl, rfl, rfl, fun _ => rfl⟩
  | some n =>
    refine ⟨rfl, rfl, rfl, rfl, rfl, rfl, rfl, fun hh => ?_⟩
    simp at hh

theorem deinit_spec_witness :
    exEmptySt.data = none
    ∧ deinit_netplay exEmptySt =
        { exEmptySt with
          enabled := false, is_client := false, latest_ping := -1
          session_status := msg_not_available
          session_sync_current := 0, session_sync_total := 0
          client_info := false, client_info_count := 0 } :=
  ⟨rfl, (deinit_spec exEmptySt).2.2.2.2.2.2.2 rfl⟩

/-- C6 counterexample: with a live session in the slot and `is_client`
set, the `enableServer` control operation still clears `is_client` (and
the slot stays occupied), so the flags are not only modified while the
slot is empty. -/
theorem ctl_flags_counterexample :
    exSessionSt.data.isSome = true
    ∧ exSessionSt.is_client = true
    ∧ (netplay_driver_ctl .enableServer exSessionSt).2.is_client = false
    ∧ (netplay_driver_ctl .enableServer exSessionSt).2.data.isSome = true
    ∧ (netplay_driver_ctl .enableClient exSessionSt).2.is_client = true :=
  ⟨rfl, rfl, rfl, rfl, rfl⟩

/-- C6 (amended): the disable operation is rejected while a session is
live — it returns false and leaves the whole driver state unchanged —
and clears `enabled` only when the slot is empty; the enable-server and
enable-client operations, by contrast, set `enabled` and set or clear
`is_client` unconditionally, even while the session slot is occupied. -/
theorem ctl_flags_amended (st : NetDriverState) :
    (st.data.isSome = true → netplay_driver_ctl .disable st = (false, st))
    ∧ (st.data = none →
        netplay_driver_ctl .disable st = (true, { st with enabled := false }))
    ∧ netplay_driver_ctl .enableServer st
        = (true, { st with enabled := true, is_client := false })
    ∧ netplay_driver_ctl .enableClient st
        = (true, { st with enabled := true, is_client := true }) := by
  refine ⟨?_, ?_, rfl, rfl⟩ <;>
    · intro h
      cases hd : st.data <;> simp_all [netplay_driver_ctl]

theorem ctl_flags_amended_witness :
    exSessionSt.data.isSome = true
    ∧ netplay_driver_ctl .disable exSessionSt = (false, exSessionSt) :=
  ⟨rfl, (ctl_flags_amended exSessionSt).1 rfl⟩

/-! Concrete environments for the orchestrator claims. -/

def exSettings : SettingsT :=
  { netplay_port := 55435
    netplay_allow_pausing := true
    netplay_desync_handling := "auto"
    input_max_users := 2
    netplay_prediction_window := 8
    netplay_local_delay := 0
    netplay_spectator_limit := 2 }

def exInitEnv : InitEnv :=
  { default_cbs_ok := true, cbs := exCbs
    netplay_cbs_ok := true, alloc_ok := true }

def exSetupEnv : SetupEnv :=
  { settings_present := true
    settings := exSettings
    create_ok := true
    serialize_size := 4
    realloc_ok := true
    probe := fun _ => (true, true)
    adapter_ok := true
    actor_handle := 0 }

/-- C4: calling `init_netplay` while a session already occupies the
driver slot fails with the failure stage recorded as the preflight
active-session check, and the driver state — the slot with its session
object, the flags, and every other field — is returned untouched. -/
theorem init_preflight_active (env : InitEnv) (setup : SetupEnv)
    (server : Option String) (port : Nat) (st : NetDriverState)
    (h : st.data.isSome = true) :
    (init_netplay env setup server port st).1 = false
    ∧ (init_netplay env setup server port st).2.1 = st
    ∧ (init_netplay env setup server port st).2.2.failure_stage
        = "preflight_active_session" := by
  refine ⟨?_, ?_, ?_⟩ <;> simp [init_netplay, h]

theorem init_preflight_active_witness :
    exSessionSt.data.isSome = true
    ∧ (init_netplay exInitEnv exSetupEnv (some "peer.example") 55435
          exSessionSt).2.1 = exSessionSt :=
  ⟨rfl, (init_preflight_active exInitEnv exSetupEnv (some "peer.example")
          55435 exSessionSt rfl).2.1⟩

/-- The button table has pairwise-distinct entries, so the linear scan in
`input_state_net` finds an id exactly at its table index. -/
theorem button_map_find (i : Nat) (hi : i < 16) :
    (List.range NETPLAY_BUTTON_COUNT).find?
        (fun j => netplay_button_map.getD j 0 = netplay_button_map.getD i 0)
      = some i := by
  interval_cases i <;> decide

/-- C1: for a live session with `running` set, `input_state_net` on the
joypad device at index 0 with an id sitting at index `i` of the button
table returns bit `i` of `netplay_get_port_mask p` (the 16-bit mask at
byte offset `p*2` of the authoritative buffer), and the result does not
depend on the stored `state_cb` callback. -/
theorem input_state_joypad (st : NetDriverState) (n : Netplay)
    (p i id : Nat) (cb : Nat → Nat → Nat → Nat → Int)
    (hdata : st.data = some n) (hrun : n.running = true)
    (hi : i < 16) (hid : netplay_button_map.getD i 0 = id) :
    input_state_net st p RETRO_DEVICE_JOYPAD 0 id
      = (if (netplay_get_port_mask (some n) p).testBit i then 1 else 0)
    ∧ input_state_net { st with data := some { n with cbs_state := cb } }
        p RETRO_DEVICE_JOYPAD 0 id
      = input_state_net st p RETRO_DEVICE_JOYPAD 0 id := by
  subst hid
  have hfind := button_map_find i hi
  simp only [List.getD_eq_getElem?_getD] at hfind
  have hcongr : ∀ (a b : Netplay),
      a.authoritative_valid = b.authoritative_valid →
      a.authoritative_input = b.authoritative_input →
      a.authoritative_size = b.authoritative_size →
      netplay_get_port_mask (some a) p = netplay_get_port_mask (some b) p := by
    intro a b h1 h2 h3
    simp only [netplay_get_port_mask]
    rw [h1, h2, h3]
  refine ⟨?_, ?_⟩
  · simp [input_state_net, hdata, hrun, hfind]
  · simp [input_state_net, hdata, hrun, hfind]
    rw [show netplay_get_port_mask
          (some { n with running := true, cbs_state := cb }) p
        = netplay_get_port_mask (some n) p from hcongr _ n rfl rfl rfl]

theorem input_state_joypad_witness :
    exSessionSt.data = some exN ∧ exN.running = true ∧ (0 : Nat) < 16
    ∧ netplay_button_map.getD 0 0 = 0
    ∧ input_state_net exSessionSt 0 RETRO_DEVICE_JOYPAD 0 0
        = (if (netplay_get_port_mask (some exN) 0).testBit 0 then 1 else 0) :=
  ⟨rfl, rfl, by decide, rfl,
   (input_state_joypad exSessionSt exN 0 0 0 exCbs rfl rfl (by decide)
      rfl).1⟩

/-! Loader environments: one where every open fails, one where the
library opens at the executable-directory path with all symbols. -/

def loaderEnvFail : LoaderEnv :=
  { path_candidate := some "/opt/retroarch/libGekkoNet.so"
    open_at_path := false
    open_bare := false
    sym := fun _ => false }

def loaderEnvOk : LoaderEnv :=
  { path_candidate := some "/opt/retroarch/libGekkoNet.so"
    open_at_path := true
    open_bare := true
    sym := fun _ => true }

/-- C2 counterexample: a failed load is not latched.  From the fresh
loader state, a call in an environment where both opens fail returns
false; the very next call — in an environment where the library has
since become loadable — performs the open and symbol resolution again
and returns true, so a subsequent call does not "return false
immediately without attempting another open". -/
theorem loader_latch_counterexample :
    (gekkonet_load_library loaderEnvFail loaderInit).1 = false
    ∧ (gekkonet_load_library loaderEnvOk
        (gekkonet_load_library loaderEnvFail loaderInit).2).1 = true :=
  ⟨rfl, rfl⟩

/-- C2 (amended): after any failed load — OS-level open failure or a
missing required symbol — the loader records `load_failed = true` but
clears `attempted_load`, so the failure is not latched: the next call
runs the open and symbol resolution again (and succeeds whenever the
open now succeeds and every required symbol resolves). -/
theorem loader_not_latched (env : LoaderEnv) (s : LoaderState)
    (hm : s.module = false) (ha : s.attempted_load = false)
    (hf : (gekkonet_load_library env s).1 = false) :
    (gekkonet_load_library env s).2.module = false
    ∧ (gekkonet_load_library env s).2.attempted_load = false
    ∧ (gekkonet_load_library env s).2.load_failed = true
    ∧ ∀ env2 : LoaderEnv,
        env2.open_at_path = true → env2.open_bare = true →
        gekkonet_required_symbols.all env2.sym = true →
        (gekkonet_load_library env2
          (gekkonet_load_library env s).2).1 = true := by
  have hshape : (gekkonet_load_library env s).2.module = false
      ∧ (gekkonet_load_library env s).2.attempted_load = false
      ∧ (gekkonet_load_library env s).2.load_failed = true := by
    unfold gekkonet_load_library at hf ⊢
    rw [hm, ha] at hf ⊢
    simp only [Bool.false_eq_true, if_false] at hf ⊢
    split at hf
    · rename_i heq
      simp only [heq]
      exact ⟨trivial, trivial, trivial⟩
    · rename_i p heq
      split at hf
      · simp at hf
      · rename_i hnall
        rw [if_neg hnall]
        exact ⟨rfl, rfl, rfl⟩
  refine ⟨hshape.1, hshape.2.1, hshape.2.2, fun env2 h2p h2b h2s => ?_⟩
  rcases hshape with ⟨hs1, hs2, -⟩
  set s2 := (gekkonet_load_library env s).2 with hs2def
  unfold gekkonet_load_library
  rw [hs1, hs2]
  simp only [Bool.false_eq_true, if_false]
  rcases hc : env2.path_candidate with _ | pc <;>
    simp [hc, h2p, h2b, h2s]

theorem loader_not_latched_witness :
    loaderInit.module = false
    ∧ loaderInit.attempted_load = false
    ∧ (gekkonet_load_library loaderEnvFail loaderInit).1 = false
    ∧ (gekkonet_load_library loaderEnvFail loaderInit).2.load_failed
        = true :=
  ⟨rfl, rfl, rfl,
   (loader_not_latched loaderEnvFail loaderInit rfl rfl rfl).2.2.1⟩

theorem padTo_length (s : Nat) (l : List Nat) : (padTo s l).length = s := by
  simp [padTo]
  omega

/-- C5: with a non-null engine buffer, length slot and checksum slot,
a successful save event copies `min(payload, *state_len)` bytes of the
serialized payload into the engine buffer, writes the copied size back
through `state_len`, and stores in the checksum slot the IEEE CRC32 with
seed 0 over the **full** serialized payload (the serialize call's size,
even when the copy was truncated); when the serialize callback fails,
neither the engine buffer nor the length nor the checksum slot is
written. -/
theorem save_event_spec (env : CoreEnv) (n : Netplay) (ev : GekkoSaveData)
    (cap : Nat) (hsz : env.serialize_size ≠ 0) (hra : env.realloc_ok = true)
    (hst : ev.state_present = true) (hlen : ev.state_len = some cap)
    (hck : ev.checksum_present = true) :
    (env.serialize_ok = true →
      (netplay_handle_save_event env n ev).netplay.state_size
          = env.serialize_size
      ∧ (netplay_handle_save_event env n ev).state_len_out
          = some (min env.serialize_size cap)
      ∧ (netplay_handle_save_event env n ev).state_written
          = some ((padTo env.serialize_size env.serialize_bytes).take
                    (min env.serialize_size cap))
      ∧ (netplay_handle_save_event env n ev).checksum_out
          = some (crc32 0 (padTo env.serialize_size env.serialize_bytes)))
    ∧ (env.serialize_ok = false →
      (netplay_handle_save_event env n ev).state_written = none
      ∧ (netplay_handle_save_event env n ev).state_len_out = none
      ∧ (netplay_handle_save_event env n ev).checksum_out = none) := by
  have hmin : ∀ m : Nat, (if m > cap then cap else m) = min m cap := by
    intro m
    split <;> omega
  have htake :
      (padTo env.serialize_size env.serialize_bytes).take env.serialize_size
        = padTo env.serialize_size env.serialize_bytes :=
    List.take_of_length_le (le_of_eq (padTo_length _ _))
  set n1 : Netplay :=
    if env.serialize_size = n.state_size then n
    else { n with state_size := env.serialize_size
                  state_buffer := padTo env.serialize_size n.state_buffer }
    with hn1def
  have hrefresh : netplay_refresh_serialization env.serialize_size
      env.realloc_ok n = some n1 := by
    unfold netplay_refresh_serialization
    by_cases heq : env.serialize_size = n.state_size
    · simp [hsz, heq, hra, hn1def]
      omega
    · simp [hsz, heq, hra, hn1def]
  have hsize : n1.state_size = env.serialize_size := by
    by_cases heq : env.serialize_size = n.state_size <;>
      simp [hn1def, heq]
  constructor <;> intro hok <;>
    unfold netplay_handle_save_event <;>
    rw [hrefresh] <;>
    simp [hok, hst, hlen, hck, hsize, hmin, htake]

def exSaveEnv : CoreEnv :=
  { serialize_size := 3, realloc_ok := true
    serialize_ok := true, serialize_bytes := [10, 20, 30] }

def exSaveEv : GekkoSaveData :=
  { state_present := true, state_len := some 2, checksum_present := true }

theorem save_event_spec_witness :
    exSaveEnv.serialize_size ≠ 0 ∧ exSaveEnv.realloc_ok = true
    ∧ exSaveEv.state_present = true ∧ exSaveEv.state_len = some 2
    ∧ exSaveEv.checksum_present = true ∧ exSaveEnv.serialize_ok = true
    ∧ ((netplay_handle_save_event exSaveEnv (netplay_new exCbs)
          exSaveEv).netplay.state_size = exSaveEnv.serialize_size
      ∧ (netplay_handle_save_event exSaveEnv (netplay_new exCbs)
          exSaveEv).state_len_out = some (min exSaveEnv.serialize_size 2)
      ∧ (netplay_handle_save_event exSaveEnv (netplay_new exCbs)
          exSaveEv).state_written
          = some ((padTo exSaveEnv.serialize_size
              exSaveEnv.serialize_bytes).take (min exSaveEnv.serialize_size 2))
      ∧ (netplay_handle_save_event exSaveEnv (netplay_new exCbs)
          exSaveEv).checksum_out
          = some (crc32 0 (padTo exSaveEnv.serialize_size
              exSaveEnv.serialize_bytes))) :=
  ⟨by decide, rfl, rfl, rfl, rfl, rfl,
   (save_event_spec exSaveEnv (netplay_new exCbs) exSaveEv 2
      (by decide) rfl rfl rfl rfl).1 rfl⟩

theorem fallback_probed_length (probe : Nat → Bool × Bool) :
    ∀ fuel pp, (fallback_probed probe fuel pp).length ≤ fuel := by
  intro fuel
  induction fuel with
  | zero => intro pp; simp [fallback_probed]
  | succ k ih =>
    intro pp
    simp only [fallback_probed]
    split
    · simp
    · split
      · simp
      · split
        · simp
        · simp only [List.length_cons]
          exact Nat.succ_le_succ (ih _)

theorem fallback_probed_bounds (probe : Nat → Bool × Bool) :
    ∀ fuel pp, pp < 65536 →
      ∀ q ∈ fallback_probed probe fuel pp, pp < q ∧ q ≤ 65535 := by
  intro fuel
  induction fuel with
  | zero => intro pp _ q hq; simp [fallback_probed] at hq
  | succ k ih =>
    intro pp hpp q hq
    simp only [fallback_probed] at hq
    split at hq
    · simp at hq
    · rename_i hw
      have hlt : pp + 1 < 65536 := by omega
      have hmod : (pp + 1) % 65536 = pp + 1 := Nat.mod_eq_of_lt hlt
      rw [hmod] at hq
      split at hq
      · simp at hq; omega
      · split at hq
        · simp at hq; omega
        · simp only [List.mem_cons] at hq
          rcases hq with rfl | hq
          · omega
          · obtain ⟨h1, h2⟩ := ih (pp + 1) hlt q hq
            exact ⟨by omega, h2⟩

theorem fallback_probed_dropLast (probe : Nat → Bool × Bool) :
    ∀ fuel pp, ∀ q ∈ (fallback_probed probe fuel pp).dropLast,
      probe q = (false, true) := by
  intro fuel
  induction fuel with
  | zero => intro pp q hq; simp [fallback_probed] at hq
  | succ k ih =>
    intro pp q hq
    simp only [fallback_probed] at hq
    split at hq
    · simp at hq
    · split at hq
      · simp at hq
      · split at hq
        · simp at hq
        · rename_i hw hc1 hc2
          rcases hrec : fallback_probed probe k ((pp + 1) % 65536)
            with _ | ⟨a, l⟩
          · rw [hrec] at hq; simp at hq
          · rw [hrec, List.dropLast_cons₂] at hq
            rcases List.mem_cons.mp hq with rfl | hq'
            · rcases hp : probe ((pp + 1) % 65536) with ⟨a', b'⟩
              rw [hp] at hc1 hc2
              cases a' <;> cases b' <;> simp_all
            · rw [← hrec] at hq'
              exact ih ((pp + 1) % 65536) q hq'

theorem fallback_loop_selected (probe : Nat → Bool × Bool) :
    ∀ fuel idx pp diag p,
      (fallback_loop probe fuel idx pp diag).1 = some p →
      p ∈ fallback_probed probe fuel pp
      ∧ (probe p).1 = true ∧ (probe p).2 = true := by
  intro fuel
  induction fuel with
  | zero => intro idx pp diag p h; simp [fallback_loop] at h
  | succ k ih =>
    intro idx pp diag p h
    simp only [fallback_loop] at h
    split at h
    · simp at h
    · rename_i hw
      split at h
      · rename_i hc1
        simp only [Option.some.injEq] at h
        subst h
        have hand := hc1
        simp only [Bool.and_eq_true] at hand
        refine ⟨?_, hand.1, hand.2⟩
        simp only [fallback_probed]
        rw [if_neg hw, if_pos hc1]
        simp
      · rename_i hc1
        split at h
        · simp at h
        · rename_i hc2
          have hrest := ih (idx + 1) ((pp + 1) % 65536) _ p h
          refine ⟨?_, hrest.2.1, hrest.2.2⟩
          simp only [fallback_probed]
          rw [if_neg hw, if_neg hc1, if_neg hc2]
          exact List.mem_cons_of_mem _ hrest.1

theorem fallback_loop_unverified (probe : Nat → Bool × Bool) :
    ∀ fuel idx pp diag,
      (fallback_loop probe fuel idx pp diag).2.1 = false →
      ∃ q, q ∈ fallback_probed probe fuel pp ∧ (probe q).2 = false := by
  intro fuel
  induction fuel with
  | zero => intro idx pp diag h; simp [fallback_loop] at h
  | succ k ih =>
    intro idx pp diag h
    simp only [fallback_loop] at h
    split at h
    · simp at h
    · rename_i hw
      split at h
      · simp at h
      · rename_i hc1
        split at h
        · rename_i hc2
          refine ⟨(pp + 1) % 65536, ?_, ?_⟩
          · simp only [fallback_probed]
            rw [if_neg hw, if_neg hc1, if_pos hc2]
            simp
          · simpa using hc2
        · rename_i hc2
          obtain ⟨q, hmem, hqv⟩ := ih (idx + 1) ((pp + 1) % 65536) _ h
          refine ⟨q, ?_, hqv⟩
          simp only [fallback_probed]
          rw [if_neg hw, if_neg hc1, if_neg hc2]
          exact List.mem_cons_of_mem _ hmem

/-- C3: the fallback port scan probes at most 16 candidates; every
probed candidate is strictly greater than the requested port and never
past 65535 (the wrap check aborts before probing port 0); every
candidate the scan moved past was unavailable-but-verified, so the scan
stops at the first available-and-verified candidate and aborts at the
first unverified one; a port is selected only if its probe returned
available and verified; an abort with the verified flag cleared pins an
unverified probed candidate; and the scan block is entered only when the
initial probe returned `available = false, verified = true`. -/
theorem fallback_scan_spec (probe : Nat → Bool × Bool) (req : Nat)
    (hreq : req < 65536) :
    (fallback_probed probe 16 req).length ≤ 16
    ∧ (∀ q ∈ fallback_probed probe 16 req, req < q ∧ q ≤ 65535)
    ∧ (∀ q ∈ (fallback_probed probe 16 req).dropLast,
        probe q = (false, true))
    ∧ (∀ (diag : HostDiag) (p : Nat),
        (fallback_loop probe 16 0 req diag).1 = some p →
        p ∈ fallback_probed probe 16 req
        ∧ (probe p).1 = true ∧ (probe p).2 = true)
    ∧ (∀ diag : HostDiag,
        (fallback_loop probe 16 0 req diag).2.1 = false →
        ∃ q, q ∈ fallback_probed probe 16 req ∧ (probe q).2 = false)
    ∧ (((probe req).1 = true ∨ (probe req).2 = false) →
        (netplay_port_selection probe req
            hostDiagInit).2.fallback_scan_attempted = false) := by
  refine ⟨fallback_probed_length probe 16 req,
          fallback_probed_bounds probe 16 req hreq,
          fallback_probed_dropLast probe 16 req,
          fun diag p => fallback_loop_selected probe 16 0 req diag p,
          fun diag => fallback_loop_unverified probe 16 0 req diag,
          ?_⟩
  intro hinit
  unfold netplay_port_selection
  rcases hinit with h | h <;> simp [h, hostDiagInit]

theorem fallback_scan_spec_witness :
    (55435 : Nat) < 65536
    ∧ (fallback_probed (fun _ => (false, true)) 16 55435).length ≤ 16 :=
  ⟨by decide,
   (fallback_scan_spec (fun _ => (false, true)) 55435 (by decide)).1⟩
